import Mathlib

/-!
Verification of the MQTT-to-TimescaleDB bridge
(src/telegraf/mqtt_to_timescaledb.py).

The embedding models the ingestion pipeline (`on_message`,
`insert_sensor_reading`), the dedup cache (the insertion-ordered
`seen_messages` dict), config loading (`load_mqtt_config`), the
connection entry point (`connect_mqtt`) and the config-reconciliation
step of `main`.  Python-level effects are made explicit:

* the dedup dict is a list of keys in insertion order (keys are unique
  because a key is inserted only after the membership check fails);
* the TimescaleDB sink is a list of stored rows plus counters for write
  attempts and for reconnect attempts (`insert_sensor_reading` catches
  every exception itself, logs, reconnects, and returns normally);
* whether a given DB write succeeds is an oracle `writeOk` carried by
  the message, and the wall-clock rendering `str(dt)` of the derived
  datetime is an oracle string `dtStr` carried likewise;
* Python truthiness of `x or default` is modelled by the `pyOr...`
  helpers (None, "", 0, [] and False are falsy).
-/

/-- Dedup key: the canonical name (`haystackName` falling back to
`haystack_name`; `none` when both are absent/falsy) paired with the
timestamp truncated to one-second resolution. -/
abbrev DedupKey := Option String × String

/-- A parsed JSON payload; `none` marks a field absent from the JSON
object.  Values are modelled at their natural types. -/
structure Payload where
  timestamp : Option String := none
  haystackName : Option String := none
  haystack_name : Option String := none
  siteId : Option String := none
  equipmentType : Option String := none
  equipmentId : Option String := none
  deviceId : Option Int := none
  deviceName : Option String := none
  deviceIp : Option String := none
  objectType : Option String := none
  objectInstance : Option Int := none
  pointId : Option String := none
  pointName : Option String := none
  dis : Option String := none
  value : Option String := none
  units : Option String := none
  quality : Option String := none
  pollDuration : Option Int := none
  pollCycle : Option Int := none
deriving DecidableEq, Repr

/-- Python `a or b` on optional strings: `a` when present and non-empty,
otherwise `b`.  Mirrors `payload.get('haystackName') or
payload.get('haystack_name')`. -/
def pyOrOpt (a b : Option String) : Option String :=
  match a with
  | some s => if s = "" then b else some s
  | none => b

/-- `timestamp[:19] if timestamp and len(timestamp) >= 19 else str(dt)[:19]`
(line 222): the dedup timestamp truncated to one second. -/
def timestampSecond (timestamp : Option String) (dtStr : String) : String :=
  match timestamp with
  | some ts => if 19 ≤ ts.length then ts.take 19 else dtStr.take 19
  | none => dtStr.take 19

/-- The dedup key computed at lines 221-223. -/
def dedupKeyOf (p : Payload) (dtStr : String) : DedupKey :=
  (pyOrOpt p.haystackName p.haystack_name, timestampSecond p.timestamp dtStr)

/-- The row shape of the `data` dict built at lines 233-252 /
the `sensor_readings` insert columns. -/
structure NormalizedReading where
  time : String
  site_id : Option String
  equipment_type : Option String
  equipment_id : Option String
  device_id : Int
  device_name : Option String
  device_ip : Option String
  object_type : String
  object_instance : Int
  point_id : Option String
  point_name : Option String
  haystack_name : Option String
  dis : Option String
  value : Option String
  units : Option String
  quality : String
  poll_duration : Option Int
  poll_cycle : Option Int
deriving DecidableEq, Repr

/-- Lines 233-252: map payload fields to the insert row, with
`payload.get(k, default)` defaults for device_id, object_type,
object_instance and quality. -/
def normalizeReading (p : Payload) (dtStr : String) : NormalizedReading :=
  { time := dtStr
    site_id := p.siteId
    equipment_type := p.equipmentType
    equipment_id := p.equipmentId
    device_id := p.deviceId.getD 0
    device_name := p.deviceName
    device_ip := p.deviceIp
    object_type := p.objectType.getD "unknown"
    object_instance := p.objectInstance.getD 0
    point_id := p.pointId
    point_name := p.pointName
    haystack_name := pyOrOpt p.haystackName p.haystack_name
    dis := p.dis
    value := p.value
    units := p.units
    quality := p.quality.getD "good"
    poll_duration := p.pollDuration
    poll_cycle := p.pollCycle }

/-- The `stats` dict (lines 63-67). -/
structure Stats where
  messages_received : Nat
  messages_written : Nat
  errors : Nat
deriving DecidableEq, Repr

/-- Observable state of the ingestion pipeline: counters, the dedup
cache in insertion order, the rows actually stored in TimescaleDB,
the number of insert attempts issued, the number of storage
reconnect attempts, and the number of progress log lines emitted. -/
structure PipeState where
  stats : Stats
  seen_messages : List DedupKey
  db : List NormalizedReading
  write_attempts : Nat
  reconnect_attempts : Nat
  progress_logs : Nat
deriving DecidableEq, Repr

/-- The process-start pipeline state. -/
def init_pipe : PipeState :=
  { stats := { messages_received := 0, messages_written := 0, errors := 0 }
    seen_messages := []
    db := []
    write_attempts := 0
    reconnect_attempts := 0
    progress_logs := 0 }

/-- Lines 228-230: after inserting a key, when the dict holds more than
1000 entries, pop the first (earliest-inserted) key 100 times. -/
def evictSeen (seen : List DedupKey) : List DedupKey :=
  if 1000 < seen.length then seen.drop 100 else seen

/-- `insert_sensor_reading` (lines 270-300): issues one insert; on any
exception it logs, calls `connect_timescale_db()` and RETURNS NORMALLY
(the exception never escapes to the caller). -/
def insert_sensor_reading (st : PipeState) (row : NormalizedReading)
    (writeOk : Bool) : PipeState :=
  if writeOk then
    { st with db := st.db ++ [row], write_attempts := st.write_attempts + 1 }
  else
    { st with write_attempts := st.write_attempts + 1
              reconnect_attempts := st.reconnect_attempts + 1 }

/-- One inbound MQTT delivery.  `malformed` is a payload that fails
`json.loads` (or otherwise raises before the dedup check succeeds);
`parsed` carries the decoded payload, the oracle for whether the DB
write would succeed, and the `str(dt)` rendering of the derived
datetime. -/
inductive Msg where
  | malformed
  | parsed (p : Payload) (writeOk : Bool) (dtStr : String)
deriving DecidableEq, Repr

/-- `on_message` (lines 203-267): count the message; parse (failure
increments `errors` and drops it); dedup-check and early-return on a
duplicate; insert the key and evict; build the row; call
`insert_sensor_reading`; increment `messages_written`; log progress
when `messages_received` is a multiple of 10. -/
def on_message (st : PipeState) (m : Msg) : PipeState :=
  match m with
  | .malformed =>
      { st with stats := { st.stats with
          messages_received := st.stats.messages_received + 1
          errors := st.stats.errors + 1 } }
  | .parsed p writeOk dtStr =>
      let st1 : PipeState := { st with stats := { st.stats with
          messages_received := st.stats.messages_received + 1 } }
      let key := dedupKeyOf p dtStr
      if key ∈ st1.seen_messages then st1
      else
        let st2 : PipeState :=
          { st1 with seen_messages := evictSeen (st1.seen_messages ++ [key]) }
        let st3 := insert_sensor_reading st2 (normalizeReading p dtStr) writeOk
        let st4 : PipeState := { st3 with stats := { st3.stats with
            messages_written := st3.stats.messages_written + 1 } }
        if st4.stats.messages_received % 10 = 0 then
          { st4 with progress_logs := st4.progress_logs + 1 }
        else st4

/-- Process a list of deliveries in arrival order. -/
def run_pipeline (st : PipeState) (ms : List Msg) : PipeState :=
  ms.foldl on_message st

/-- The in-memory `mqtt_config` dict (lines 40-52). -/
structure MqttConfig where
  broker : String
  port : Nat
  client_id : String
  username : String
  password : String
  tls_enabled : Bool
  tls_insecure : Bool
  ca_cert_path : Option String
  topic_patterns : List String
  qos : Nat
  enabled : Bool
deriving DecidableEq, Repr

/-- The initial value of `mqtt_config`. -/
def init_mqtt_config : MqttConfig :=
  { broker := ""
    port := 1883
    client_id := "storage_telegraf"
    username := ""
    password := ""
    tls_enabled := false
    tls_insecure := false
    ca_cert_path := none
    topic_patterns := ["bacnet/#"]
    qos := 1
    enabled := false }

/-- The `MqttConfig` database row (id = 1); `none` is SQL NULL. -/
structure MqttConfigRow where
  broker : Option String
  port : Option Nat
  clientId : Option String
  username : Option String
  password : Option String
  tlsEnabled : Option Bool
  tlsInsecure : Option Bool
  caCertPath : Option String
  topicPatterns : Option (List String)
  qos : Option Nat
  enabled : Option Bool
deriving DecidableEq, Repr

/-- Python `x or d` for a nullable string column: NULL and "" are falsy. -/
def pyOrStr (v : Option String) (d : String) : String :=
  match v with
  | none => d
  | some s => if s = "" then d else s

/-- Python `x or d` for a nullable integer column: NULL and 0 are falsy. -/
def pyOrNat (v : Option Nat) (d : Nat) : Nat :=
  match v with
  | none => d
  | some n => if n = 0 then d else n

/-- Python `x or d` for a nullable boolean column: NULL and False are falsy. -/
def pyOrBool (v : Option Bool) (d : Bool) : Bool :=
  match v with
  | none => d
  | some b => b || d

/-- Python `x or d` for a nullable list column: NULL and [] are falsy. -/
def pyOrList (v : Option (List String)) (d : List String) : List String :=
  match v with
  | none => d
  | some l => if l = [] then d else l

/-- `load_mqtt_config` (lines 93-131): when a row exists, overwrite
`mqtt_config` field by field with `row_value or default` (except
`enabled`, which tests `is not None`) and return True; when no row
exists (or the query fails) leave the config unchanged and return
False. -/
def load_mqtt_config (row : Option MqttConfigRow) (cfg : MqttConfig) :
    MqttConfig × Bool :=
  match row with
  | none => (cfg, false)
  | some r =>
      ({ broker := pyOrStr r.broker ""
         port := pyOrNat r.port 1883
         client_id := pyOrStr r.clientId "storage_telegraf"
         username := pyOrStr r.username ""
         password := pyOrStr r.password ""
         tls_enabled := pyOrBool r.tlsEnabled false
         tls_insecure := pyOrBool r.tlsInsecure false
         ca_cert_path := r.caCertPath
         topic_patterns := pyOrList r.topicPatterns ["bacnet/#"]
         qos := pyOrNat r.qos 1
         enabled := r.enabled.getD true }, true)

/-- Connection-side observable state: the session object (`mqtt_client`,
tagged with the config snapshot that built it), the `mqtt_connected`
flag, and the sequence of connection statuses written to the config
database. -/
structure ConnState where
  mqtt_client : Option MqttConfig
  mqtt_connected : Bool
  statuses : List String
deriving DecidableEq, Repr

/-- The process-start connection state. -/
def init_conn : ConnState :=
  { mqtt_client := none, mqtt_connected := false, statuses := [] }

/-- `connect_mqtt` (lines 303-378).  Early-returns False when the broker
address is empty or the config is disabled, touching nothing.
Otherwise builds a client, records status `connecting`, issues the
connect and waits; `outcome` is the oracle for the asynchronous
`on_connect` callback within the wait window: `some true` = accepted
(sets `mqtt_connected`, records `connected`), `some false` = rejected
(records `error`), `none` = no callback yet.  Returns the value of
`mqtt_connected` after the wait. -/
def connect_mqtt (cfg : MqttConfig) (st : ConnState) (outcome : Option Bool) :
    ConnState × Bool :=
  if cfg.broker = "" then (st, false)
  else if cfg.enabled = false then (st, false)
  else
    let st1 : ConnState := { st with
        mqtt_client := some cfg
        statuses := st.statuses ++ ["connecting"] }
    let st2 : ConnState :=
      match outcome with
      | some true => { st1 with mqtt_connected := true,
                                statuses := st1.statuses ++ ["connected"] }
      | some false => { st1 with mqtt_connected := false,
                                 statuses := st1.statuses ++ ["error"] }
      | none => st1
    (st2, st2.mqtt_connected)

/-- Combined state seen by the main reconciliation loop. -/
structure BridgeState where
  cfg : MqttConfig
  conn : ConnState
deriving DecidableEq, Repr

/-- The config-check body of `main` (lines 406-425): save the old
broker/port/TLS values, reload the config, compare, and when one of the
three differs AND a client object exists, disconnect (the
`on_disconnect` callback clears `mqtt_connected` and records status
`disconnected`), stop the loop and call `connect_mqtt` with the new
config.  Returns the new state and whether the session was torn down
and rebuilt. -/
def reconcile_config (st : BridgeState) (row : Option MqttConfigRow)
    (outcome : Option Bool) : BridgeState × Bool :=
  let old_broker := st.cfg.broker
  let old_port := st.cfg.port
  let old_tls := st.cfg.tls_enabled
  let cfg2 := (load_mqtt_config row st.cfg).1
  if (old_broker ≠ cfg2.broker ∨ old_port ≠ cfg2.port ∨
      old_tls ≠ cfg2.tls_enabled) ∧ st.conn.mqtt_client.isSome = true then
    let conn1 : ConnState := { st.conn with
        mqtt_connected := false
        statuses := st.conn.statuses ++ ["disconnected"] }
    let conn2 := (connect_mqtt cfg2 conn1 outcome).1
    ({ cfg := cfg2, conn := conn2 }, true)
  else
    ({ st with cfg := cfg2 }, false)

/-! ### Helper lemmas about single pipeline steps -/

/-- A message whose dedup key is already cached only increments
`messages_received` (lines 224-225 return before any other effect). -/
theorem on_message_dup (st : PipeState) (p : Payload) (w : Bool) (dt : String)
    (h : dedupKeyOf p dt ∈ st.seen_messages) :
    on_message st (.parsed p w dt) =
      { st with stats := { st.stats with
          messages_received := st.stats.messages_received + 1 } } := by
  simp [on_message, h]

/-- Explicit form of a fresh (non-duplicate, successfully parsed)
message step. -/
theorem on_message_fresh (st : PipeState) (p : Payload) (w : Bool) (dt : String)
    (h : dedupKeyOf p dt ∉ st.seen_messages) :
    on_message st (.parsed p w dt) =
      { stats := { messages_received := st.stats.messages_received + 1
                   messages_written := st.stats.messages_written + 1
                   errors := st.stats.errors }
        seen_messages := evictSeen (st.seen_messages ++ [dedupKeyOf p dt])
        db := if w then st.db ++ [normalizeReading p dt] else st.db
        write_attempts := st.write_attempts + 1
        reconnect_attempts :=
          if w then st.reconnect_attempts else st.reconnect_attempts + 1
        progress_logs :=
          if (st.stats.messages_received + 1) % 10 = 0 then
            st.progress_logs + 1
          else st.progress_logs } := by
  cases w <;>
    simp only [on_message, insert_sensor_reading, h, if_false, if_true,
      Bool.false_eq_true, ite_false, ite_true, if_neg h] <;>
    split <;> rfl

/-- The key just inserted survives the eviction batch: eviction only
triggers past 1000 entries and removes the 100 oldest, and the new key
is the newest. -/
theorem mem_evictSeen_append (seen : List DedupKey) (k : DedupKey) :
    k ∈ evictSeen (seen ++ [k]) := by
  unfold evictSeen
  split
  · rename_i h
    have hlen : 100 ≤ seen.length := by
      simp only [List.length_append, List.length_singleton] at h
      omega
    rw [List.drop_append_of_le_length hlen]
    exact List.mem_append_right _ (List.mem_singleton.mpr rfl)
  · exact List.mem_append_right _ (List.mem_singleton.mpr rfl)

/-- Running any number of messages that all carry an already-cached key
only adds their count to `messages_received`. -/
theorem run_dup_all (k : DedupKey) :
    ∀ (ms : List (Payload × Bool × String)) (st : PipeState),
      (∀ x ∈ ms, dedupKeyOf x.1 x.2.2 = k) → k ∈ st.seen_messages →
      run_pipeline st (ms.map fun x => .parsed x.1 x.2.1 x.2.2) =
        { st with stats := { st.stats with
            messages_received := st.stats.messages_received + ms.length } } := by
  intro ms
  induction ms with
  | nil => intro st _ _; simp [run_pipeline]
  | cons x rest ih =>
      intro st hk hmem
      have hx : dedupKeyOf x.1 x.2.2 = k := hk x (List.mem_cons_self x rest)
      have hxmem : dedupKeyOf x.1 x.2.2 ∈ st.seen_messages := hx ▸ hmem
      have hstep := on_message_dup st x.1 x.2.1 x.2.2 hxmem
      have hrest := ih { st with stats := { st.stats with
            messages_received := st.stats.messages_received + 1 } }
        (fun y hy => hk y (List.mem_cons_of_mem x hy)) hmem
      simp only [run_pipeline, List.map_cons, List.foldl_cons] at hrest ⊢
      rw [hstep, hrest]
      obtain ⟨⟨a, b, c⟩, s, d, wa, ra, pl⟩ := st
      simp only [PipeState.mk.injEq, Stats.mk.injEq, List.length_cons,
        and_true, true_and]
      omega

/-! ### Claim theorems -/

/-- C1 counterexample: a non-duplicate parsed message whose Storage
Sink write fails.  `insert_sensor_reading` swallows the exception (the
reconnect counter shows the failure path was taken), so `errors` stays
0 and `messages_written` still becomes 1 — contradicting the claim that
a failed write increments `errors` and does not increment
`messagesWritten`. -/
theorem write_failure_claim_cex :
    (on_message init_pipe (.parsed {} false "2024-01-01 00:00:00")).reconnect_attempts = 1 ∧
    (on_message init_pipe (.parsed {} false "2024-01-01 00:00:00")).stats.errors = 0 ∧
    (on_message init_pipe (.parsed {} false "2024-01-01 00:00:00")).stats.messages_written = 1 := by
  decide

/-- C1 (amended): for every parsed, non-duplicate message whose Storage
Sink write fails, the pipeline triggers exactly one storage reconnect
attempt, issues exactly one write attempt (no retry), stores no row,
and processes subsequent fresh readings normally (each still issues a
write attempt) — but `errors` is left unchanged and `messagesWritten`
is still incremented, because `insert_sensor_reading` catches the
failure internally. -/
theorem write_failure_behavior (st st2 : PipeState) (p : Payload) (dt : String)
    (hnew : dedupKeyOf p dt ∉ st.seen_messages)
    (hst2 : st2 = on_message st (.parsed p false dt)) :
    st2.stats.errors = st.stats.errors ∧
    st2.stats.messages_written = st.stats.messages_written + 1 ∧
    st2.reconnect_attempts = st.reconnect_attempts + 1 ∧
    st2.write_attempts = st.write_attempts + 1 ∧
    st2.db = st.db ∧
    (∀ q wq dtq, dedupKeyOf q dtq ∉ st2.seen_messages →
      (on_message st2 (.parsed q wq dtq)).write_attempts = st2.write_attempts + 1) := by
  subst hst2
  rw [on_message_fresh st p false dt hnew]
  refine ⟨rfl, rfl, rfl, rfl, rfl, ?_⟩
  intro q wq dtq hq
  rw [on_message_fresh _ q wq dtq hq]

/-- C1 witness: the amended behavior evaluated at a concrete failed
write from the initial state. -/
theorem write_failure_behavior_witness :
    (on_message init_pipe (.parsed {} false "t")).stats.errors = init_pipe.stats.errors ∧
    (on_message init_pipe (.parsed {} false "t")).stats.messages_written
      = init_pipe.stats.messages_written + 1 :=
  ⟨(write_failure_behavior init_pipe (on_message init_pipe (.parsed {} false "t"))
      {} "t" (by decide) rfl).1,
   (write_failure_behavior init_pipe (on_message init_pipe (.parsed {} false "t"))
      {} "t" (by decide) rfl).2.1⟩

/-- C8 counterexample: ten malformed messages.  The receipt of the 10th
makes `messagesReceived` = 10, a multiple of 10, yet no progress log
line is ever emitted, because the log statement sits after the parse
and dedup early exits — contradicting "regardless of whether that
message is later dropped as a parse failure or a duplicate". -/
theorem progress_log_dropped_cex :
    (run_pipeline init_pipe (List.replicate 10 Msg.malformed)).stats.messages_received = 10 ∧
    (run_pipeline init_pipe (List.replicate 10 Msg.malformed)).progress_logs = 0 := by
  decide

/-- C8 (amended): the progress log line is emitted exactly when the
message parses, is not a duplicate, and the incremented
`messagesReceived` is a multiple of 10; parse failures and duplicates
never emit it. -/
theorem progress_log_emission (st : PipeState) (m : Msg) :
    (on_message st m).progress_logs =
      st.progress_logs +
        match m with
        | .malformed => 0
        | .parsed p _ dt =>
            if dedupKeyOf p dt ∈ st.seen_messages then 0
            else if (st.stats.messages_received + 1) % 10 = 0 then 1 else 0 := by
  cases m with
  | malformed => simp [on_message]
  | parsed p w dt =>
      by_cases h : dedupKeyOf p dt ∈ st.seen_messages
      · rw [on_message_dup st p w dt h]
        simp [h]
      · rw [on_message_fresh st p w dt h]
        simp only [if_neg h]
        by_cases hc : (st.stats.messages_received + 1) % 10 = 0 <;>
          simp [hc]

/-- A stored config row whose non-null qos is 0. -/
def rowQosZero : MqttConfigRow :=
  { broker := some "broker1", port := some 1883, clientId := none
    username := none, password := none, tlsEnabled := some false
    tlsInsecure := none, caCertPath := none, topicPatterns := none
    qos := some 0, enabled := some true }

/-- C6 counterexample: a stored, non-null qos of 0 is NOT loaded
unchanged — `result[9] or 1` treats 0 as falsy and substitutes the
default 1. -/
theorem load_config_qos_zero_cex :
    rowQosZero.qos = some 0 ∧
    (load_mqtt_config (some rowQosZero) init_mqtt_config).1.qos = 1 := by
  decide

/-- C6 (amended): defaults are applied whenever the stored value is
null OR Python-falsy: `topicPatterns` becomes `["bacnet/#"]` when null
or empty, `qos` becomes 1 when null or 0, while `enabled` alone tests
`is not None` and so preserves a stored false, defaulting to true only
on null. -/
theorem load_config_defaults (r : MqttConfigRow) (cfg : MqttConfig) :
    ((load_mqtt_config (some r) cfg).1.topic_patterns =
      match r.topicPatterns with
      | none => ["bacnet/#"]
      | some l => if l = [] then ["bacnet/#"] else l) ∧
    ((load_mqtt_config (some r) cfg).1.qos =
      match r.qos with
      | none => 1
      | some q => if q = 0 then 1 else q) ∧
    ((load_mqtt_config (some r) cfg).1.enabled =
      match r.enabled with
      | none => true
      | some b => b) := by
  refine ⟨rfl, rfl, ?_⟩
  show r.enabled.getD true = _
  cases r.enabled <;> rfl

/-- C7: each of the four defaulted fields takes the payload value when
present and the documented default when absent. -/
theorem normalize_reading_defaults (p : Payload) (dt : String) :
    ((p.objectType = none → (normalizeReading p dt).object_type = "unknown") ∧
     ∀ v, p.objectType = some v → (normalizeReading p dt).object_type = v) ∧
    ((p.deviceId = none → (normalizeReading p dt).device_id = 0) ∧
     ∀ v, p.deviceId = some v → (normalizeReading p dt).device_id = v) ∧
    ((p.objectInstance = none → (normalizeReading p dt).object_instance = 0) ∧
     ∀ v, p.objectInstance = some v → (normalizeReading p dt).object_instance = v) ∧
    ((p.quality = none → (normalizeReading p dt).quality = "good") ∧
     ∀ v, p.quality = some v → (normalizeReading p dt).quality = v) := by
  refine ⟨⟨fun h => ?_, fun v h => ?_⟩, ⟨fun h => ?_, fun v h => ?_⟩,
    ⟨fun h => ?_, fun v h => ?_⟩, ⟨fun h => ?_, fun v h => ?_⟩⟩ <;>
    simp [normalizeReading, h]

/-- A payload carrying all four defaulted fields explicitly. -/
def pAll : Payload :=
  { objectType := some "analogInput", deviceId := some 7
    objectInstance := some 3, quality := some "uncertain" }

/-- C7 witness: the defaults at an empty payload and the pass-through
at a fully populated one. -/
theorem normalize_reading_defaults_witness :
    (normalizeReading {} "t").object_type = "unknown" ∧
    (normalizeReading {} "t").device_id = 0 ∧
    (normalizeReading {} "t").object_instance = 0 ∧
    (normalizeReading {} "t").quality = "good" ∧
    (normalizeReading pAll "t").object_type = "analogInput" ∧
    (normalizeReading pAll "t").device_id = 7 ∧
    (normalizeReading pAll "t").object_instance = 3 ∧
    (normalizeReading pAll "t").quality = "uncertain" :=
  ⟨(normalize_reading_defaults {} "t").1.1 rfl,
   (normalize_reading_defaults {} "t").2.1.1 rfl,
   (normalize_reading_defaults {} "t").2.2.1.1 rfl,
   (normalize_reading_defaults {} "t").2.2.2.1 rfl,
   (normalize_reading_defaults pAll "t").1.2 "analogInput" rfl,
   (normalize_reading_defaults pAll "t").2.1.2 7 rfl,
   (normalize_reading_defaults pAll "t").2.2.1.2 3 rfl,
   (normalize_reading_defaults pAll "t").2.2.2.2 "uncertain" rfl⟩

/-- C5: with `enabled` false or an empty broker address, `connect_mqtt`
returns False immediately: no client object is created, no state field
changes, and no status (in particular no error status) is recorded. -/
theorem connect_disabled_noop (cfg : MqttConfig) (st : ConnState)
    (outcome : Option Bool)
    (h : cfg.enabled = false ∨ cfg.broker = "") :
    connect_mqtt cfg st outcome = (st, false) := by
  by_cases hb : cfg.broker = ""
  · simp [connect_mqtt, hb]
  · rcases h with h | h
    · simp [connect_mqtt, hb, h]
    · exact absurd h hb

/-- C5 witness: the initial (disabled, empty-broker) config from the
initial connection state. -/
theorem connect_disabled_noop_witness :
    connect_mqtt init_mqtt_config init_conn none = (init_conn, false) :=
  connect_disabled_noop init_mqtt_config init_conn none (Or.inl rfl)

/-- C2: for a batch of parsed messages all sharing one dedup key that
is not yet cached, only the first results in a Storage Sink write
(exactly one write attempt, one `messages_written` increment); every
subsequent one only increments `messages_received`, and `errors` is
untouched. -/
theorem dedup_same_key_batch (st : PipeState) (k : DedupKey)
    (ms : List (Payload × Bool × String))
    (hk : ∀ x ∈ ms, dedupKeyOf x.1 x.2.2 = k)
    (hnot : k ∉ st.seen_messages) (hne : ms ≠ []) :
    (run_pipeline st (ms.map fun x => .parsed x.1 x.2.1 x.2.2)).write_attempts
        = st.write_attempts + 1 ∧
    (run_pipeline st (ms.map fun x => .parsed x.1 x.2.1 x.2.2)).stats.messages_written
        = st.stats.messages_written + 1 ∧
    (run_pipeline st (ms.map fun x => .parsed x.1 x.2.1 x.2.2)).stats.messages_received
        = st.stats.messages_received + ms.length ∧
    (run_pipeline st (ms.map fun x => .parsed x.1 x.2.1 x.2.2)).stats.errors
        = st.stats.errors := by
  cases ms with
  | nil => exact absurd rfl hne
  | cons x rest =>
      have hx : dedupKeyOf x.1 x.2.2 = k := hk x (List.mem_cons_self x rest)
      have hxnot : dedupKeyOf x.1 x.2.2 ∉ st.seen_messages := by
        rw [hx]; exact hnot
      have hstep := on_message_fresh st x.1 x.2.1 x.2.2 hxnot
      have hmem : k ∈ (on_message st (.parsed x.1 x.2.1 x.2.2)).seen_messages := by
        rw [hstep]
        exact hx ▸ mem_evictSeen_append st.seen_messages (dedupKeyOf x.1 x.2.2)
      have hrest := run_dup_all k rest (on_message st (.parsed x.1 x.2.1 x.2.2))
        (fun y hy => hk y (List.mem_cons_of_mem x hy)) hmem
      simp only [run_pipeline, List.map_cons, List.foldl_cons] at hrest ⊢
      rw [hrest, hstep]
      refine ⟨rfl, rfl, ?_, rfl⟩
      simp only [List.length_cons]
      omega

/-- A payload whose canonical name and timestamp are fixed, used to
drive duplicate batches. -/
def pDup : Payload :=
  { haystackName := some "site.ahu1.temp"
    timestamp := some "2024-01-01T00:00:00Z" }

/-- Three deliveries of the same reading. -/
def msDup : List (Payload × Bool × String) :=
  [(pDup, true, "d"), (pDup, true, "d"), (pDup, false, "d")]

/-- The shared dedup key of `msDup`. -/
def kDup : DedupKey := dedupKeyOf pDup "d"

/-- C2 witness: three same-key deliveries from the initial state. -/
theorem dedup_same_key_batch_witness :
    (run_pipeline init_pipe (msDup.map fun x => .parsed x.1 x.2.1 x.2.2)).write_attempts
        = init_pipe.write_attempts + 1 ∧
    (run_pipeline init_pipe (msDup.map fun x => .parsed x.1 x.2.1 x.2.2)).stats.messages_written
        = init_pipe.stats.messages_written + 1 ∧
    (run_pipeline init_pipe (msDup.map fun x => .parsed x.1 x.2.1 x.2.2)).stats.messages_received
        = init_pipe.stats.messages_received + msDup.length ∧
    (run_pipeline init_pipe (msDup.map fun x => .parsed x.1 x.2.1 x.2.2)).stats.errors
        = init_pipe.stats.errors :=
  dedup_same_key_batch init_pipe kDup msDup (by decide) (by decide) (by decide)

/-- C3: when the cache held at most 1000 keys and inserting a fresh key
makes it exceed 1000, exactly the 100 earliest-inserted entries are
evicted, and the resulting size (the prior size + 1 - 100) is at most
1000. -/
theorem dedup_cache_eviction (st : PipeState) (p : Payload) (w : Bool) (dt : String)
    (hnew : dedupKeyOf p dt ∉ st.seen_messages)
    (hcap : st.seen_messages.length ≤ 1000)
    (htrig : 1000 < st.seen_messages.length + 1) :
    (on_message st (.parsed p w dt)).seen_messages
        = (st.seen_messages ++ [dedupKeyOf p dt]).drop 100 ∧
    (on_message st (.parsed p w dt)).seen_messages.length
        = st.seen_messages.length + 1 - 100 ∧
    (on_message st (.parsed p w dt)).seen_messages.length ≤ 1000 := by
  have hlen : st.seen_messages.length = 1000 := by omega
  have hev : evictSeen (st.seen_messages ++ [dedupKeyOf p dt])
      = (st.seen_messages ++ [dedupKeyOf p dt]).drop 100 := by
    unfold evictSeen
    rw [if_pos]
    simp [hlen]
  rw [on_message_fresh st p w dt hnew]
  refine ⟨hev, ?_, ?_⟩
  · show (evictSeen (st.seen_messages ++ [dedupKeyOf p dt])).length = _
    rw [hev]
    simp only [List.length_drop, List.length_append, List.length_singleton]
  · show (evictSeen (st.seen_messages ++ [dedupKeyOf p dt])).length ≤ 1000
    rw [hev]
    simp only [List.length_drop, List.length_append, List.length_singleton]
    omega

/-- One thousand distinct keyless cache entries. -/
def seen1000 : List DedupKey := (List.range 1000).map (fun i => (none, toString i))

/-- A pipeline state whose dedup cache is exactly full. -/
def pipe1000 : PipeState := { init_pipe with seen_messages := seen1000 }

/-- A fresh named reading not present in `seen1000`. -/
def pz : Payload :=
  { haystackName := some "z", timestamp := some "2024-01-01T00:00:00Z" }

/-- The full cache holds exactly 1000 entries. -/
theorem seen1000_length : seen1000.length = 1000 := by
  simp [seen1000]

/-- `pz`'s key is fresh for `seen1000`: every cached key is keyless. -/
theorem pz_not_in_seen1000 : dedupKeyOf pz "d" ∉ seen1000 := by
  intro h
  obtain ⟨i, _, hi⟩ := List.mem_map.mp h
  have hfst : (none : Option String) = (dedupKeyOf pz "d").1 :=
    congrArg Prod.fst hi
  simp [dedupKeyOf, pz, pyOrOpt] at hfst

set_option maxRecDepth 100000 in
/-- C3 witness: inserting into a 1000-entry cache. -/
theorem dedup_cache_eviction_witness :
    (on_message pipe1000 (.parsed pz true "d")).seen_messages.length
        = pipe1000.seen_messages.length + 1 - 100 ∧
    (on_message pipe1000 (.parsed pz true "d")).seen_messages.length ≤ 1000 :=
  (dedup_cache_eviction pipe1000 pz true "d" pz_not_in_seen1000
    (by show seen1000.length ≤ 1000; rw [seen1000_length])
    (by show 1000 < seen1000.length + 1; rw [seen1000_length]; omega)).2

/-- A reading whose write will fail. -/
def pFail : Payload :=
  { haystackName := some "site.ahu2.temp"
    timestamp := some "2024-01-01T00:00:01Z" }

/-- C9: the dedup key is cached BEFORE the write is attempted, so after
a failed write the key is in the cache, no row was stored, and any
later message with the same key is suppressed as a duplicate (it only
increments `messages_received` — in particular it is never written). -/
theorem failed_write_key_blocks_retry (st st2 : PipeState) (p : Payload) (dt : String)
    (hnew : dedupKeyOf p dt ∉ st.seen_messages)
    (hst2 : st2 = on_message st (.parsed p false dt)) :
    dedupKeyOf p dt ∈ st2.seen_messages ∧
    st2.db = st.db ∧
    ∀ q wq dtq, dedupKeyOf q dtq = dedupKeyOf p dt →
      on_message st2 (.parsed q wq dtq) =
        { st2 with stats := { st2.stats with
            messages_received := st2.stats.messages_received + 1 } } := by
  subst hst2
  rw [on_message_fresh st p false dt hnew]
  refine ⟨mem_evictSeen_append st.seen_messages (dedupKeyOf p dt), rfl, ?_⟩
  intro q wq dtq hq
  apply on_message_dup
  rw [hq]
  exact mem_evictSeen_append st.seen_messages (dedupKeyOf p dt)

/-- C9 witness: a failed write of `pFail` from the initial state caches
its key and stores nothing. -/
theorem failed_write_key_blocks_retry_witness :
    dedupKeyOf pFail "d" ∈ (on_message init_pipe (.parsed pFail false "d")).seen_messages ∧
    (on_message init_pipe (.parsed pFail false "d")).db = init_pipe.db :=
  ⟨(failed_write_key_blocks_retry init_pipe
      (on_message init_pipe (.parsed pFail false "d")) pFail "d" (by decide) rfl).1,
   (failed_write_key_blocks_retry init_pipe
      (on_message init_pipe (.parsed pFail false "d")) pFail "d" (by decide) rfl).2.1⟩

/-- C10: two payloads both lacking `haystackName` and `haystack_name`
share the keyless dedup name component `none`; if their timestamps
truncate to the same second they collide on the same DedupKey, so after
the first is processed (one write attempt), the second is dropped as a
duplicate, incrementing only `messages_received`. -/
theorem keyless_messages_dedup (st st1 : PipeState) (p q : Payload)
    (wp wq : Bool) (dtp dtq : String)
    (hp1 : p.haystackName = none) (hp2 : p.haystack_name = none)
    (hq1 : q.haystackName = none) (hq2 : q.haystack_name = none)
    (hts : timestampSecond q.timestamp dtq = timestampSecond p.timestamp dtp)
    (hnew : dedupKeyOf p dtp ∉ st.seen_messages)
    (hst1 : st1 = on_message st (.parsed p wp dtp)) :
    dedupKeyOf p dtp = (none, timestampSecond p.timestamp dtp) ∧
    dedupKeyOf q dtq = dedupKeyOf p dtp ∧
    st1.write_attempts = st.write_attempts + 1 ∧
    on_message st1 (.parsed q wq dtq) =
      { st1 with stats := { st1.stats with
          messages_received := st1.stats.messages_received + 1 } } := by
  have hkp : dedupKeyOf p dtp = (none, timestampSecond p.timestamp dtp) := by
    simp [dedupKeyOf, pyOrOpt, hp1, hp2]
  have hkq : dedupKeyOf q dtq = dedupKeyOf p dtp := by
    simp [dedupKeyOf, pyOrOpt, hp1, hp2, hq1, hq2, hts]
  subst hst1
  rw [on_message_fresh st p wp dtp hnew]
  refine ⟨hkp, hkq, rfl, ?_⟩
  apply on_message_dup
  rw [hkq]
  exact mem_evictSeen_append st.seen_messages (dedupKeyOf p dtp)

/-- A keyless reading with an explicit timestamp. -/
def pNoKey1 : Payload := { timestamp := some "2024-01-01T00:00:00Z" }

/-- A second, distinct keyless reading in the same second. -/
def pNoKey2 : Payload := { timestamp := some "2024-01-01T00:00:00.500Z" }

/-- C10 witness: the two keyless readings collide from the initial
state; the second only bumps `messages_received`. -/
theorem keyless_messages_dedup_witness :
    dedupKeyOf pNoKey1 "d1" = (none, timestampSecond pNoKey1.timestamp "d1") ∧
    dedupKeyOf pNoKey2 "d2" = dedupKeyOf pNoKey1 "d1" ∧
    (on_message init_pipe (.parsed pNoKey1 true "d1")).write_attempts
        = init_pipe.write_attempts + 1 ∧
    on_message (on_message init_pipe (.parsed pNoKey1 true "d1"))
        (.parsed pNoKey2 true "d2") =
      { (on_message init_pipe (.parsed pNoKey1 true "d1")) with
        stats := { (on_message init_pipe (.parsed pNoKey1 true "d1")).stats with
          messages_received :=
            (on_message init_pipe (.parsed pNoKey1 true "d1")).stats.messages_received + 1 } } :=
  keyless_messages_dedup init_pipe (on_message init_pipe (.parsed pNoKey1 true "d1"))
    pNoKey1 pNoKey2 true true "d1" "d2" rfl rfl rfl rfl (by decide) (by decide) rfl

/-- C4: on a reconciliation tick with an active client object, the
session is torn down and rebuilt exactly when the freshly loaded
broker, port or TLS flag differs from the previously active values;
when the tick does not rebuild, the connection side of the state is
left completely untouched (topic-pattern or QoS changes alone never
rebuild). -/
theorem reconfigure_material_change_iff (st : BridgeState)
    (row : Option MqttConfigRow) (outcome : Option Bool)
    (hclient : st.conn.mqtt_client.isSome = true) :
    ((reconcile_config st row outcome).2 = true ↔
      (st.cfg.broker ≠ (load_mqtt_config row st.cfg).1.broker ∨
       st.cfg.port ≠ (load_mqtt_config row st.cfg).1.port ∨
       st.cfg.tls_enabled ≠ (load_mqtt_config row st.cfg).1.tls_enabled)) ∧
    ((reconcile_config st row outcome).2 = false →
      (reconcile_config st row outcome).1.conn = st.conn) := by
  simp only [reconcile_config]
  split
  · rename_i h
    exact ⟨iff_of_true rfl h.1, fun hf => Bool.noConfusion hf⟩
  · rename_i h
    refine ⟨iff_of_false (fun hf => Bool.noConfusion hf) ?_, fun _ => rfl⟩
    intro hor
    exact h ⟨hor, hclient⟩

/-- The previously active config: broker1, default port, TLS off. -/
def cfgBroker1 : MqttConfig :=
  { init_mqtt_config with broker := "broker1", enabled := true }

/-- A bridge state with a live session built from `cfgBroker1`. -/
def bst1 : BridgeState :=
  { cfg := cfgBroker1
    conn := { mqtt_client := some cfgBroker1
              mqtt_connected := true
              statuses := ["connecting", "connected"] } }

/-- A stored row identical to `cfgBroker1` except TLS is now enabled. -/
def rowTls : MqttConfigRow :=
  { broker := some "broker1", port := some 1883, clientId := none
    username := none, password := none, tlsEnabled := some true
    tlsInsecure := none, caCertPath := none, topicPatterns := none
    qos := some 1, enabled := some true }

/-- C4 witness: flipping only the TLS flag rebuilds the session. -/
theorem reconfigure_material_change_iff_witness :
    (reconcile_config bst1 (some rowTls) (some true)).2 = true :=
  (reconfigure_material_change_iff bst1 (some rowTls) (some true)
      (by decide)).1.mpr (by decide)
